import Mathlib

/-!
Shallow embedding of `src/helpers/Prism.js` (stretchfs-sdk): a promise-based
client for the Prism content/job HTTP service.  Each public method of the
`Prism` prototype is translated into a pure Lean function over an explicit
client-state record.  The network is abstracted by an oracle
`OutRequest → HttpOutcome` answering the single POST an operation may issue;
each operation returns its result, the list of requests it issued, and the
final client state.

The API helper (`src/helpers/api.js`) is required by Prism.js but is not part
of this repository snapshot; its members used here (`validateResponse`,
`handleNetworkError`, `setSession`, the URL builder) are modelled from the
spec and marked as such.
-/

namespace StretchFS

/-- JSON values as produced/consumed by the JS code (numbers restricted to
integers, which is all Prism.js ever puts in a payload). -/
inductive Json where
  | null : Json
  | bool (b : Bool) : Json
  | num (n : Int) : Json
  | str (s : String) : Json
  | arr (elems : List Json) : Json
  | obj (fields : List (String × Json)) : Json

/-- Hex digit as used by `JSON.stringify` in `\u00XX` escapes. -/
def hexDigit (n : Nat) : Char :=
  if n < 10 then Char.ofNat (48 + n) else Char.ofNat (87 + (n - 10))

/-- Escaping of a single character exactly as `JSON.stringify` does for
string values: `"` and `\` get a backslash, the five short control escapes
are used when available, other control characters become `\u00XX`. -/
def escapeJsonChar (c : Char) : String :=
  if c = '"' then "\\\""
  else if c = '\\' then "\\\\"
  else if c = '\x08' then "\\b"
  else if c = '\x09' then "\\t"
  else if c = '\x0a' then "\\n"
  else if c = '\x0c' then "\\f"
  else if c = '\x0d' then "\\r"
  else if c.toNat < 32 then
    "\\u00" ++ String.mk [hexDigit (c.toNat / 16), hexDigit (c.toNat % 16)]
  else String.mk [c]

/-- `JSON.stringify` escaping applied to a whole string. -/
def escapeJsonString (s : String) : String :=
  String.join (s.toList.map escapeJsonChar)

mutual

/-- `JSON.stringify` on our JSON fragment (used by `jobCreate`, which sends
`JSON.stringify(description)` as the `description` field). -/
def jsonStringify : Json → String
  | .null => "null"
  | .bool true => "true"
  | .bool false => "false"
  | .num n => toString n
  | .str s => "\"" ++ escapeJsonString s ++ "\""
  | .arr xs => "[" ++ stringifyElems xs ++ "]"
  | .obj fs => "\x7b" ++ stringifyFields fs ++ "\x7d"

/-- Comma-separated serialization of array elements. -/
def stringifyElems : List Json → String
  | [] => ""
  | [x] => jsonStringify x
  | x :: y :: xs => jsonStringify x ++ "," ++ stringifyElems (y :: xs)

/-- Comma-separated serialization of object fields. -/
def stringifyFields : List (String × Json) → String
  | [] => ""
  | [(k, v)] => "\"" ++ escapeJsonString k ++ "\":" ++ jsonStringify v
  | (k, v) :: f :: fs =>
      "\"" ++ escapeJsonString k ++ "\":" ++ jsonStringify v ++ ","
        ++ stringifyFields (f :: fs)

end

/-- JS property access `j.key` on a JSON value: present field of an object,
otherwise `undefined` (here `none`). -/
def jsonGet (j : Json) (key : String) : Option Json :=
  match j with
  | .obj fs => fs.lookup key
  | _ => none

/-- JS truthiness of a JSON value. -/
def jsTruthy : Json → Bool
  | .null => false
  | .bool b => b
  | .num n => n != 0
  | .str s => s != ""
  | .arr _ => true
  | .obj _ => true

/-- JS truthiness of a possibly-`undefined` JSON value. -/
def jsTruthyOpt : Option Json → Bool
  | none => false
  | some j => jsTruthy j

/-- JS truthiness of a possibly-`undefined` string (empty string is falsy). -/
def jsTruthyStr : Option String → Bool
  | none => false
  | some s => s != ""

/-- JS truthiness of a possibly-`undefined` number (0 is falsy). -/
def jsTruthyNat : Option Nat → Bool
  | none => false
  | some n => n != 0

/-- JS truthiness of a possibly-`undefined` integer (0 is falsy). -/
def jsTruthyInt : Option Int → Bool
  | none => false
  | some n => n != 0

/-- JS `a || b` for an optional string argument against a string default. -/
def jsOrStr (a : Option String) (b : String) : String :=
  match a with
  | some s => if s = "" then b else s
  | none => b

/-- JS string conversion of a nullable string (`null` prints as "null" under
string concatenation). -/
def jsShowOptStr : Option String → String
  | none => "null"
  | some s => s

/-- JS string conversion of a nullable number. -/
def jsShowOptNat : Option Nat → String
  | none => "null"
  | some n => toString n

/-- The error values that can flow out of an operation: `userError` is the
`UserError` class thrown by Prism.js itself; `networkError` is a raw
transport-level rejection; `normalizedError` is what the API helper's shared
network-error handler turns a raw network failure into; `typeError` is a
plain JS `TypeError` (e.g. calling a method of the empty `this.api`). -/
inductive JsError where
  | userError (msg : String) : JsError
  | networkError (msg : String) : JsError
  | normalizedError (msg : String) : JsError
  | typeError (msg : String) : JsError
deriving Repr, DecidableEq

/-- Modelled from the spec: `api.handleNetworkError`, the shared
network-error handler of the API helper (`src/helpers/api.js`, absent from
this snapshot).  Per the spec it normalizes network/remote failures and
re-throws them, while user-facing errors (such as the missing-session
`UserError`) stay distinct from network failures, i.e. pass through. -/
def apiHandleNetworkError : JsError → JsError
  | .networkError m => .normalizedError m
  | e => e

/-- `that.handleNetworkError` as referenced by every operation except
`login`: `Prism.prototype` defines no `handleNetworkError`, so the property
is `undefined`, and bluebird's `.catch(undefined)` (a non-function handler)
lets the rejection pass through unchanged.  Embedded as the identity. -/
def prismHandleNetworkError : JsError → JsError := fun e => e

/-- The slice of an HTTP response the validation step looks at. -/
structure HttpRes where
  statusCode : Nat
deriving Repr, DecidableEq

/-- Modelled from the spec: `api.validateResponse()`, the shared
response-validation step external to this module ("success is determined by
a shared response-validation step").  It passes `(res, body)` through on a
200 response and throws otherwise. -/
def validateResponse (res : HttpRes) (body : Json) :
    Except JsError (HttpRes × Json) :=
  if res.statusCode = 200 then .ok (res, body)
  else .error (.userError ("Invalid response code (" ++ toString res.statusCode ++ ")"))

/-- The body of an outgoing POST: a JSON payload (`json: {...}`), a bare
`json: true` (no payload, parse the response as JSON), or multipart form
data streaming a file (`contentUpload`). -/
inductive ReqBody where
  | jsonBody (j : Json) : ReqBody
  | jsonTrue : ReqBody
  | formFile (filepath : String) : ReqBody

/-- An outgoing HTTP POST issued by an operation: the endpoint path passed to
the request client's URL builder, and the body. -/
structure OutRequest where
  path : String
  body : ReqBody

/-- What the transport returns for a POST: a response with a parsed JSON
body, or a network-level failure. -/
inductive HttpOutcome where
  | success (res : HttpRes) (body : Json) : HttpOutcome
  | failure (e : JsError) : HttpOutcome

/-- Which API accessor `connect` installed: `api.setupAccess('prism', ...)`
when a host was given (direct access), `api.prism(...)` otherwise. -/
inductive ApiMode where
  | directAccess : ApiMode
  | balanced : ApiMode
deriving Repr, DecidableEq

/-- Client options (`this.opts`): credentials, CDN domain and prism
host/port.  `prismHost`/`prismPort` are nullable, as in the JS defaults. -/
structure PrismOpts where
  username : String
  password : String
  domain : String
  prismHost : Option String
  prismPort : Option Nat
deriving Repr, DecidableEq

/-- The defaults installed by the constructor before `$load(opts)`. -/
def defaultOpts : PrismOpts :=
  { username := ""
    password := ""
    domain := "cdn.oose.io"
    prismHost := none
    prismPort := some 5971 }

/-- The state of a Prism client object: options, the two gating flags, the
session value, and the API accessor (`none` models the initial empty
`this.api = {}`, which has no usable methods). -/
structure PrismClient where
  opts : PrismOpts
  authenticated : Bool
  connected : Bool
  session : Json
  apiMode : Option ApiMode

/-- The constructor `new Prism(opts)` after options are loaded. -/
def PrismClient.new (opts : PrismOpts) : PrismClient :=
  { opts := opts
    authenticated := false
    connected := false
    session := .obj []
    apiMode := none }

/-- `isConnected()`. -/
def isConnected (c : PrismClient) : Bool := c.connected

/-- `isAuthenticated()`. -/
def isAuthenticated (c : PrismClient) : Bool := c.authenticated

/-- `setSession(sessionToken)`: store `{token: sessionToken}` as the session
and mark the client authenticated; returns `this`. -/
def setSession (c : PrismClient) (sessionToken : String) : PrismClient :=
  { c with
      session := .obj [("token", .str sessionToken)]
      authenticated := true }

/-- `connect(host, port)`: pure state update (the body runs inside `P.try`
with no I/O).  Returns the value the promise resolves to
(`host || that.opts.prism.host`) together with the new client state. -/
def connect (c : PrismClient) (host : Option String) (port : Option Nat) :
    String × PrismClient :=
  if jsTruthyStr host then
    let opts' := { c.opts with
        prismHost := host
        prismPort := if jsTruthyNat port then port else c.opts.prismPort }
    (host.getD "",
      { c with opts := opts', connected := true, apiMode := some .directAccess })
  else
    let host' : Option String :=
      if jsTruthyStr c.opts.prismHost then c.opts.prismHost else some c.opts.domain
    let port' : Option Nat :=
      if jsTruthyNat c.opts.prismPort then c.opts.prismPort
      else some (if jsTruthyNat port then port.getD 0 else 5971)
    (host'.getD "",
      { c with
          opts := { c.opts with prismHost := host', prismPort := port' }
          connected := true
          apiMode := some .balanced })

/-- The request client returned by `prepare`: the underlying API accessor
with the session bound under the token header name. -/
structure RequestClient where
  session : Json
  tokenHeader : String

/-- Modelled from the spec: `api.setSession(session, request, headerName)`
of the API helper — "returns a request client bound with the session token
header"; a pure client factory, no network. -/
def apiSetSession (session : Json) (headerName : String) : RequestClient :=
  { session := session, tokenHeader := headerName }

/-- `prepare(request, session)` with both arguments defaulted (as every
caller in this file does): build the session-bound client, then throw
`UserError('Not connected')` / `UserError('Not authenticated')` if the
respective flag is down, else resolve to the client.  Entirely local — the
source body contains no network call. -/
def prepare (c : PrismClient) : Except JsError RequestClient :=
  let client := apiSetSession c.session "X-OOSE-Token"
  if !(isConnected c) then .error (.userError "Not connected")
  else if !(isAuthenticated c) then .error (.userError "Not authenticated")
  else .ok client

/-- The outcome of running one operation against a network oracle: the
promise's result, the POSTs actually issued, and the client state after. -/
structure OpResult (α : Type) where
  result : Except JsError α
  requests : List OutRequest
  client : PrismClient

/-- The common pipeline of the standard operations:
`prepare → postAsync(req) → validateResponse → return body`, with the given
catch handler on the promise chain.  A `prepare` failure is a synchronous
throw, so nothing is posted and the catch handler never sees it. -/
def postPipeline (c : PrismClient) (req : OutRequest)
    (catchFn : JsError → JsError) (oracle : OutRequest → HttpOutcome) :
    OpResult Json :=
  match prepare c with
  | .error e => ⟨.error e, [], c⟩
  | .ok _client =>
    match oracle req with
    | .failure e => ⟨.error (catchFn e), [req], c⟩
    | .success res body =>
      match validateResponse res body with
      | .error e => ⟨.error (catchFn e), [req], c⟩
      | .ok (_res, body') => ⟨.ok body', [req], c⟩

/-- `login(username, password)`: POST credentials to `/user/login` through
`this.api` directly (no `prepare`), validate, require a truthy
`body.session`, store it and set `authenticated`.  The whole chain ends in
`.catch(that.api.handleNetworkError)` — the real shared handler.  If
`connect` never installed an accessor, `this.api` is the empty object and
`this.api.postAsync(...)` throws a `TypeError` synchronously. -/
def login (c : PrismClient) (username password : Option String)
    (oracle : OutRequest → HttpOutcome) : OpResult Json :=
  match c.apiMode with
  | none => ⟨.error (.typeError "that.api.postAsync is not a function"), [], c⟩
  | some _ =>
    let req : OutRequest :=
      { path := "/user/login"
        body := .jsonBody (.obj
          [("username", .str (jsOrStr username c.opts.username)),
           ("password", .str (jsOrStr password c.opts.password))]) }
    match oracle req with
    | .failure e => ⟨.error (apiHandleNetworkError e), [req], c⟩
    | .success res body =>
      match validateResponse res body with
      | .error e => ⟨.error (apiHandleNetworkError e), [req], c⟩
      | .ok (_res, body') =>
        if jsTruthyOpt (jsonGet body' "session") then
          let sess := (jsonGet body' "session").getD .null
          ⟨.ok sess, [req], { c with session := sess, authenticated := true }⟩
        else
          ⟨.error (apiHandleNetworkError (.userError "Login failed, no session")),
            [req], c⟩

/-- `logout()`: POST `/user/logout` (bare `json: true`), validate, clear
`authenticated`, return the body; `.catch(that.handleNetworkError)` (the
undefined Prism property, a pass-through). -/
def logout (c : PrismClient) (oracle : OutRequest → HttpOutcome) :
    OpResult Json :=
  match prepare c with
  | .error e => ⟨.error e, [], c⟩
  | .ok _client =>
    let req : OutRequest := { path := "/user/logout", body := .jsonTrue }
    match oracle req with
    | .failure e => ⟨.error (prismHandleNetworkError e), [req], c⟩
    | .success res body =>
      match validateResponse res body with
      | .error e => ⟨.error (prismHandleNetworkError e), [req], c⟩
      | .ok (_res, body') => ⟨.ok body', [req], { c with authenticated := false }⟩

/-- `contentDetail(hash)`: POST `/content/detail` with `{hash}`. -/
def contentDetail (c : PrismClient) (hash : String)
    (oracle : OutRequest → HttpOutcome) : OpResult Json :=
  postPipeline c
    { path := "/content/detail", body := .jsonBody (.obj [("hash", .str hash)]) }
    prismHandleNetworkError oracle

/-- `contentUpload(filepath)`: POST `/content/upload` streaming the file as
form data (`fs.createReadStream(path.resolve(filepath))` — the filesystem
primitive is out of scope; the request records the path). -/
def contentUpload (c : PrismClient) (filepath : String)
    (oracle : OutRequest → HttpOutcome) : OpResult Json :=
  postPipeline c
    { path := "/content/upload", body := .formFile filepath }
    prismHandleNetworkError oracle

/-- `path.extname(url)` without the leading dot, as computed by
`path.extname(request.url).replace('.','')`: the extension of the last path
segment ("" for no dot or a leading-dot-only name). -/
def extnameNoDot (url : String) : String :=
  let base := (url.splitOn "/").getLastD ""
  let parts := base.splitOn "."
  match parts with
  | [] => ""
  | [_] => ""
  | first :: rest =>
    if first = "" ∧ rest.length = 1 then ""
    else rest.getLastD ""

/-- `contentRetrieve(request, fileExtension)`: default the extension from
`request.url` when omitted, POST `/content/retrieve` with
`{request, extension}`. -/
def contentRetrieve (c : PrismClient) (request : Json)
    (fileExtension : Option String) (oracle : OutRequest → HttpOutcome) :
    OpResult Json :=
  let urlStr := match jsonGet request "url" with
    | some (.str s) => s
    | _ => ""
  let ext := jsOrStr fileExtension (extnameNoDot urlStr)
  postPipeline c
    { path := "/content/retrieve"
      body := .jsonBody (.obj [("request", request), ("extension", .str ext)]) }
    prismHandleNetworkError oracle

/-- `contentPurchase(hash, ext, referrer, life)`: POST `/content/purchase`
with the four fields verbatim. -/
def contentPurchase (c : PrismClient) (hash ext : String)
    (referrer life : Json) (oracle : OutRequest → HttpOutcome) : OpResult Json :=
  postPipeline c
    { path := "/content/purchase"
      body := .jsonBody (.obj
        [("hash", .str hash), ("ext", .str ext),
         ("referrer", referrer), ("life", life)]) }
    prismHandleNetworkError oracle

/-- `contentPurchaseRemove(token)`: POST `/content/purchase/remove` with
`{token}`. -/
def contentPurchaseRemove (c : PrismClient) (token : String)
    (oracle : OutRequest → HttpOutcome) : OpResult Json :=
  postPipeline c
    { path := "/content/purchase/remove"
      body := .jsonBody (.obj [("token", .str token)]) }
    prismHandleNetworkError oracle

/-- The purchase object consumed by `urlPurchase` (`purchase.token`,
`purchase.ext`). -/
structure PurchaseObj where
  token : String
  ext : String
deriving Repr, DecidableEq

/-- `urlPurchase(purchase, name)`: pure string builder,
`'//' + domain + '/' + purchase.token + '/' + name + '.' + purchase.ext`
with `name = name || 'video'`. -/
def urlPurchase (c : PrismClient) (purchase : PurchaseObj)
    (name : Option String) : String :=
  let n := jsOrStr name "video"
  "//" ++ c.opts.domain ++ "/" ++ purchase.token ++ "/" ++ n ++ "." ++ purchase.ext

/-- `urlStatic(hash, ext, name)`: pure string builder,
`'//' + domain + '/static/' + hash + '/' + name + '.' + ext` with
`name = name || 'file'` and `ext = ext || 'bin'`. -/
def urlStatic (c : PrismClient) (hash : String) (ext name : Option String) :
    String :=
  let n := jsOrStr name "file"
  let e := jsOrStr ext "bin"
  "//" ++ c.opts.domain ++ "/static/" ++ hash ++ "/" ++ n ++ "." ++ e

/-- `jobCreate(description, priority, category)`: POST `/job/create` with
`description: JSON.stringify(description)`, `priority: priority || null`,
`category: category || 'resource'`. -/
def jobCreate (c : PrismClient) (description : Json)
    (priority : Option Int) (category : Option String)
    (oracle : OutRequest → HttpOutcome) : OpResult Json :=
  postPipeline c
    { path := "/job/create"
      body := .jsonBody (.obj
        [("description", .str (jsonStringify description)),
         ("priority", if jsTruthyInt priority then .num (priority.getD 0) else .null),
         ("category", .str (jsOrStr category "resource"))]) }
    prismHandleNetworkError oracle

/-- `jobDetail(handle)`: POST `/job/detail` with `{handle}` and return the
body directly — this operation alone has no `validateResponse` step. -/
def jobDetail (c : PrismClient) (handle : String)
    (oracle : OutRequest → HttpOutcome) : OpResult Json :=
  match prepare c with
  | .error e => ⟨.error e, [], c⟩
  | .ok _client =>
    let req : OutRequest :=
      { path := "/job/detail", body := .jsonBody (.obj [("handle", .str handle)]) }
    match oracle req with
    | .failure e => ⟨.error (prismHandleNetworkError e), [req], c⟩
    | .success _res body => ⟨.ok body, [req], c⟩

/-- `jobUpdate(handle, changes)`: POST `/job/update` with `json: changes` —
the `handle` argument is accepted but never placed in the request. -/
def jobUpdate (c : PrismClient) (_handle : String) (changes : Json)
    (oracle : OutRequest → HttpOutcome) : OpResult Json :=
  postPipeline c
    { path := "/job/update", body := .jsonBody changes }
    prismHandleNetworkError oracle

/-- `jobStart(handle)`: POST `/job/start` with `{handle}`. -/
def jobStart (c : PrismClient) (handle : String)
    (oracle : OutRequest → HttpOutcome) : OpResult Json :=
  postPipeline c
    { path := "/job/start", body := .jsonBody (.obj [("handle", .str handle)]) }
    prismHandleNetworkError oracle

/-- `jobAbort(handle)`: POST `/job/abort` with `{handle}`. -/
def jobAbort (c : PrismClient) (handle : String)
    (oracle : OutRequest → HttpOutcome) : OpResult Json :=
  postPipeline c
    { path := "/job/abort", body := .jsonBody (.obj [("handle", .str handle)]) }
    prismHandleNetworkError oracle

/-- `jobRetry(handle)`: POST `/job/retry` with `{handle}`. -/
def jobRetry (c : PrismClient) (handle : String)
    (oracle : OutRequest → HttpOutcome) : OpResult Json :=
  postPipeline c
    { path := "/job/retry", body := .jsonBody (.obj [("handle", .str handle)]) }
    prismHandleNetworkError oracle

/-- `jobRemove(handle)`: POST `/job/remove` with `{handle}`. -/
def jobRemove (c : PrismClient) (handle : String)
    (oracle : OutRequest → HttpOutcome) : OpResult Json :=
  postPipeline c
    { path := "/job/remove", body := .jsonBody (.obj [("handle", .str handle)]) }
    prismHandleNetworkError oracle

/-- `jobContentExists(handle, file)`: POST `/job/content/exists` with
`{handle, file}`, validate, and return `!!body.exists`. -/
def jobContentExists (c : PrismClient) (handle file : String)
    (oracle : OutRequest → HttpOutcome) : OpResult Bool :=
  match prepare c with
  | .error e => ⟨.error e, [], c⟩
  | .ok _client =>
    let req : OutRequest :=
      { path := "/job/content/exists"
        body := .jsonBody (.obj [("handle", .str handle), ("file", .str file)]) }
    match oracle req with
    | .failure e => ⟨.error (prismHandleNetworkError e), [req], c⟩
    | .success res body =>
      match validateResponse res body with
      | .error e => ⟨.error (prismHandleNetworkError e), [req], c⟩
      | .ok (_res, body') =>
        ⟨.ok (jsTruthyOpt (jsonGet body' "exists")), [req], c⟩

/-- `jobContentUrl(handle, file)`: pure string builder,
`'https://' + prism.host + ':' + prism.port + '/job/content/download/' +
handle + '/' + file`. -/
def jobContentUrl (c : PrismClient) (handle file : String) : String :=
  "https://" ++ jsShowOptStr c.opts.prismHost ++ ":"
    ++ jsShowOptNat c.opts.prismPort
    ++ "/job/content/download/" ++ handle ++ "/" ++ file

/-- `setSession` as a traced run: it touches no network, so no request is
issued whatever the oracle would answer. -/
def setSessionRun (c : PrismClient) (sessionToken : String)
    (_oracle : OutRequest → HttpOutcome) : OpResult PrismClient :=
  let c' := setSession c sessionToken
  ⟨.ok c', [], c'⟩

/-- `prepare` as a traced run: its body contains no `postAsync`, so no
request is issued whatever the oracle would answer. -/
def prepareRun (c : PrismClient) (_oracle : OutRequest → HttpOutcome) :
    OpResult RequestClient :=
  ⟨prepare c, [], c⟩

/-- `urlPurchase` as a traced run (pure string builder, no network). -/
def urlPurchaseRun (c : PrismClient) (purchase : PurchaseObj)
    (name : Option String) (_oracle : OutRequest → HttpOutcome) :
    OpResult String :=
  ⟨.ok (urlPurchase c purchase name), [], c⟩

/-- `urlStatic` as a traced run (pure string builder, no network). -/
def urlStaticRun (c : PrismClient) (hash : String) (ext name : Option String)
    (_oracle : OutRequest → HttpOutcome) : OpResult String :=
  ⟨.ok (urlStatic c hash ext name), [], c⟩

/-- `jobContentUrl` as a traced run (pure string builder, no network). -/
def jobContentUrlRun (c : PrismClient) (handle file : String)
    (_oracle : OutRequest → HttpOutcome) : OpResult String :=
  ⟨.ok (jobContentUrl c handle file), [], c⟩

/-! Concrete clients used by the concrete theorems below. -/

/-- A connected, authenticated client (as after `connect('example.com')`
followed by a successful `login`). -/
def readyClient : PrismClient :=
  { opts := { defaultOpts with prismHost := some "example.com" }
    authenticated := true
    connected := true
    session := .obj [("token", .str "sess")]
    apiMode := some .balanced }

/-- A freshly constructed client whose options preconfigure a prism host. -/
def preconfiguredClient : PrismClient :=
  PrismClient.new { defaultOpts with prismHost := some "p.example.com" }

/-- `prepare` succeeds on a connected, authenticated client and returns the
session-bound request client. -/
theorem prepare_ok (c : PrismClient) (hc : c.connected = true)
    (ha : c.authenticated = true) :
    prepare c = .ok { session := c.session, tokenHeader := "X-OOSE-Token" } := by
  simp [prepare, isConnected, isAuthenticated, apiSetSession, hc, ha]

/-- A rejection produced by (the model of) `validateResponse` is a user
error, which the shared network-error handler passes through unchanged. -/
theorem validateResponse_error_fixed (res : HttpRes) (body : Json)
    (e : JsError) (h : validateResponse res body = .error e) :
    apiHandleNetworkError e = e := by
  by_cases hs : res.statusCode = 200
  · simp [validateResponse, hs] at h
  · simp [validateResponse, hs] at h
    subst h
    rfl

/-- C1: the claim says every operation's network/validation failures are
re-thrown normalized via the shared network-error handler of the API helper.
Only `login` does (`.catch(that.api.handleNetworkError)`); every other
operation writes `.catch(that.handleNetworkError)`, a property `Prism`
does not have, so the raw rejection passes through.  At the concrete failing
input — a ready client whose POST rejects with the network error
"ECONNRESET" — `contentDetail` rejects with the raw network error, while
`login` (and the shared handler itself) produce the normalized error. -/
theorem contentDetail_network_error_not_normalized :
    (contentDetail readyClient "deadbeef"
        (fun _ => .failure (.networkError "ECONNRESET"))).result
      = .error (.networkError "ECONNRESET")
    ∧ (login readyClient none none
        (fun _ => .failure (.networkError "ECONNRESET"))).result
      = .error (.normalizedError "ECONNRESET")
    ∧ apiHandleNetworkError (.networkError "ECONNRESET")
      = .normalizedError "ECONNRESET" :=
  ⟨rfl, rfl, rfl⟩

/-- C2 (counterexample): `jobDetail` returns the response body without the
shared response-validation step: on a 500 response, whose validation
rejects, `jobDetail` still resolves to the body. -/
theorem jobDetail_returns_body_without_validation :
    (jobDetail readyClient "h1"
        (fun _ => .success ⟨500⟩ (.obj [("ok", .bool false)]))).result
      = .ok (.obj [("ok", .bool false)])
    ∧ validateResponse ⟨500⟩ (.obj [("ok", .bool false)])
      = .error (.userError "Invalid response code (500)") :=
  ⟨rfl, rfl⟩

/-- C2 (amended): every POST-issuing operation except `jobDetail` passes the
response through the shared response-validation step before extracting the
body — on a response the validation rejects, each of the fourteen other
operations rejects with the validation error and never returns the body —
while `jobDetail` returns the body with no validation step at all. -/
theorem post_ops_validate_before_body_except_jobDetail
    (c : PrismClient) (res : HttpRes) (body : Json) (e : JsError)
    (hc : c.connected = true) (ha : c.authenticated = true)
    (hm : c.apiMode = some .balanced)
    (hv : validateResponse res body = .error e) :
    ((login c none none (fun _ => .success res body)).result = .error e)
    ∧ ((logout c (fun _ => .success res body)).result = .error e)
    ∧ (∀ h, (contentDetail c h (fun _ => .success res body)).result = .error e)
    ∧ (∀ f, (contentUpload c f (fun _ => .success res body)).result = .error e)
    ∧ (∀ r x, (contentRetrieve c r x (fun _ => .success res body)).result = .error e)
    ∧ (∀ h x r l, (contentPurchase c h x r l
        (fun _ => .success res body)).result = .error e)
    ∧ (∀ t, (contentPurchaseRemove c t (fun _ => .success res body)).result = .error e)
    ∧ (∀ d p k, (jobCreate c d p k (fun _ => .success res body)).result = .error e)
    ∧ (∀ h g, (jobUpdate c h g (fun _ => .success res body)).result = .error e)
    ∧ (∀ h, (jobStart c h (fun _ => .success res body)).result = .error e)
    ∧ (∀ h, (jobAbort c h (fun _ => .success res body)).result = .error e)
    ∧ (∀ h, (jobRetry c h (fun _ => .success res body)).result = .error e)
    ∧ (∀ h, (jobRemove c h (fun _ => .success res body)).result = .error e)
    ∧ (∀ h f, (jobContentExists c h f (fun _ => .success res body)).result = .error e)
    ∧ (∀ h, (jobDetail c h (fun _ => .success res body)).result = .ok body) := by
  have hp := prepare_ok c hc ha
  have hfix := validateResponse_error_fixed res body e hv
  refine ⟨?_, ?_, ?_, ?_, ?_, ?_, ?_, ?_, ?_, ?_, ?_, ?_, ?_, ?_, ?_⟩ <;>
    intros <;>
    simp [login, logout, contentDetail, contentUpload, contentRetrieve,
      contentPurchase, contentPurchaseRemove, jobCreate, jobUpdate, jobStart,
      jobAbort, jobRetry, jobRemove, jobContentExists, jobDetail,
      postPipeline, hp, hm, hv, hfix, prismHandleNetworkError]

/-- C2 (amended) witness: the amended theorem applied to a ready client and
a concrete 500 response. -/
theorem post_ops_validate_witness :
    (contentDetail readyClient "deadbeef"
        (fun _ => .success ⟨500⟩ (.obj []))).result
      = .error (.userError "Invalid response code (500)")
    ∧ (jobDetail readyClient "h1"
        (fun _ => .success ⟨500⟩ (.obj []))).result = .ok (.obj []) := by
  have h := post_ops_validate_before_body_except_jobDetail readyClient ⟨500⟩
    (.obj []) (.userError "Invalid response code (500)") rfl rfl rfl (by rfl)
  exact ⟨h.2.2.1 "deadbeef", h.2.2.2.2.2.2.2.2.2.2.2.2.2.2 "h1"⟩

/-- C3 (counterexample): the claim says that for every client in any state a
sessionless login response leaves the authenticated flag false.  On a client
that is already authenticated, `login` against a 200 response with no
`session` field rejects with the user error but the authenticated flag stays
`true`, not `false`. -/
theorem login_no_session_keeps_prior_authentication :
    readyClient.authenticated = true
    ∧ ((login readyClient none none
        (fun _ => .success ⟨200⟩ (.obj [("success", .str "ok")]))).result
      = .error (.userError "Login failed, no session"))
    ∧ ((login readyClient none none
        (fun _ => .success ⟨200⟩ (.obj [("success", .str "ok")]))).client.authenticated
      = true) :=
  ⟨rfl, rfl, rfl⟩

/-- C3 (amended): whenever `login` receives a validated response whose body
lacks a truthy `session` field, it rejects with the user-facing error
`Login failed, no session` (a `UserError`, not a network failure), and both
the authenticated flag and the stored session are left unchanged — in
particular a client that was not authenticated remains unauthenticated. -/
theorem login_missing_session_user_error
    (c : PrismClient) (u p : Option String) (res : HttpRes) (body : Json)
    (m : ApiMode) (hm : c.apiMode = some m)
    (hres : res.statusCode = 200)
    (hsess : jsTruthyOpt (jsonGet body "session") = false) :
    ((login c u p (fun _ => .success res body)).result
      = .error (.userError "Login failed, no session"))
    ∧ ((login c u p (fun _ => .success res body)).client.authenticated
      = c.authenticated)
    ∧ ((login c u p (fun _ => .success res body)).client.session
      = c.session) := by
  refine ⟨?_, ?_, ?_⟩ <;>
    simp [login, hm, validateResponse, hres, hsess, apiHandleNetworkError]

/-- C3 (amended) witness: the amended theorem at a concrete unauthenticated
(but connected) client and a concrete sessionless 200 response. -/
theorem login_missing_session_witness :
    ((login { PrismClient.new defaultOpts with
          connected := true, apiMode := some .balanced } none none
        (fun _ => .success ⟨200⟩ (.obj [("success", .str "ok")]))).result
      = .error (.userError "Login failed, no session"))
    ∧ ((login { PrismClient.new defaultOpts with
          connected := true, apiMode := some .balanced } none none
        (fun _ => .success ⟨200⟩ (.obj [("success", .str "ok")]))).client.authenticated
      = false) := by
  have h := login_missing_session_user_error
    { PrismClient.new defaultOpts with connected := true, apiMode := some .balanced }
    none none ⟨200⟩ (.obj [("success", .str "ok")]) .balanced rfl rfl (by rfl)
  exact ⟨h.1, h.2.1⟩

/-- C4: `prepare` issues no network request in any state; it fails with the
local `UserError('Not connected')` when the client is not connected, with
`UserError('Not authenticated')` when connected but not authenticated, and
when both flags are up it resolves to the request client binding the
client's session under the `X-OOSE-Token` header. -/
theorem prepare_guards_and_session_binding (c : PrismClient)
    (oracle : OutRequest → HttpOutcome) :
    ((prepareRun c oracle).requests = [])
    ∧ (c.connected = false →
        (prepareRun c oracle).result = .error (.userError "Not connected"))
    ∧ (c.connected = true → c.authenticated = false →
        (prepareRun c oracle).result = .error (.userError "Not authenticated"))
    ∧ (c.connected = true → c.authenticated = true →
        (prepareRun c oracle).result
          = .ok { session := c.session, tokenHeader := "X-OOSE-Token" }) := by
  refine ⟨rfl, ?_, ?_, ?_⟩ <;>
    intros <;>
    simp [prepareRun, prepare, isConnected, isAuthenticated, apiSetSession, *]

/-- C4 witness: `prepare` on a fresh client fails `Not connected`; on a
connected-only client fails `Not authenticated`; on a ready client resolves
to the session-bound request client. -/
theorem prepare_guards_witness :
    ((prepareRun (PrismClient.new defaultOpts)
        (fun _ => .failure (.networkError "x"))).result
      = .error (.userError "Not connected"))
    ∧ ((prepareRun { PrismClient.new defaultOpts with connected := true }
        (fun _ => .failure (.networkError "x"))).result
      = .error (.userError "Not authenticated"))
    ∧ ((prepareRun readyClient (fun _ => .failure (.networkError "x"))).result
      = .ok { session := readyClient.session, tokenHeader := "X-OOSE-Token" }) :=
  ⟨(prepare_guards_and_session_binding (PrismClient.new defaultOpts) _).2.1 rfl,
   (prepare_guards_and_session_binding
      { PrismClient.new defaultOpts with connected := true } _).2.2.1 rfl rfl,
   (prepare_guards_and_session_binding readyClient _).2.2.2 rfl rfl⟩

/-- C5 (counterexample): the claim says that whenever `host` is omitted the
client falls back to the configured domain and the promise resolves to that
fallback host.  On a client whose options already configure a prism host,
`connect()` keeps that host and resolves to it, not to the domain. -/
theorem connect_keeps_preconfigured_host :
    (connect preconfiguredClient none none).1 = "p.example.com"
    ∧ preconfiguredClient.opts.domain = "cdn.oose.io"
    ∧ (connect preconfiguredClient none none).1 ≠ "cdn.oose.io" := by
  refine ⟨rfl, rfl, ?_⟩
  decide

/-- C5 (amended): `connect` always sets `connected = true`.  When a truthy
host is given it overrides the prism host (and the prism port when a truthy
port is given, keeping the configured port otherwise) and the promise
resolves to that host.  When the host is omitted, the prism host falls back
to the configured domain only if no truthy prism host is configured — an
already-configured prism host is kept — and the promise resolves to the
resulting prism host; the prism port falls back to the port argument, or
5971 when that too is falsy, only if no truthy prism port is configured. -/
theorem connect_characterization (c : PrismClient) (host : Option String)
    (port : Option Nat) :
    ((connect c host port).2.connected = true)
    ∧ (∀ h, host = some h → h ≠ "" →
        (connect c host port).1 = h
        ∧ (connect c host port).2.opts.prismHost = some h
        ∧ (jsTruthyNat port = true →
            (connect c host port).2.opts.prismPort = port)
        ∧ (jsTruthyNat port = false →
            (connect c host port).2.opts.prismPort = c.opts.prismPort))
    ∧ (jsTruthyStr host = false →
        ((jsTruthyStr c.opts.prismHost = false →
          (connect c host port).1 = c.opts.domain
          ∧ (connect c host port).2.opts.prismHost = some c.opts.domain)
        ∧ (∀ h, c.opts.prismHost = some h → h ≠ "" →
          (connect c host port).1 = h
          ∧ (connect c host port).2.opts.prismHost = some h)
        ∧ (jsTruthyNat c.opts.prismPort = false →
            (connect c host port).2.opts.prismPort
              = some (if jsTruthyNat port then port.getD 0 else 5971))
        ∧ (jsTruthyNat c.opts.prismPort = true →
            (connect c host port).2.opts.prismPort = c.opts.prismPort))) := by
  refine ⟨?_, ?_, ?_⟩
  · by_cases hh : jsTruthyStr host = true <;> simp [connect, hh]
  · intro h hhost hne
    subst hhost
    have htr : jsTruthyStr (some h) = true := by
      simp [jsTruthyStr, hne]
    refine ⟨?_, ?_, ?_, ?_⟩ <;>
      intros <;> simp [connect, htr, *]
  · intro hfalse
    refine ⟨?_, ?_, ?_, ?_⟩
    · intro hph
      constructor <;> simp [connect, hfalse, hph]
    · intro h hsome hne
      have htr : jsTruthyStr (some h) = true := by
        simp [jsTruthyStr, hne]
      constructor <;> simp [connect, hfalse, hsome, htr]
    · intro hpp
      simp [connect, hfalse, hpp]
    · intro hpp
      simp [connect, hfalse, hpp]

/-- C5 (amended) witness: with a host argument `connect` resolves to it; on
a default client with host omitted it resolves to the fallback domain. -/
theorem connect_characterization_witness :
    ((connect (PrismClient.new defaultOpts) (some "example.com") (some 80)).1
      = "example.com")
    ∧ ((connect (PrismClient.new defaultOpts) none none).1 = "cdn.oose.io") :=
  ⟨((connect_characterization (PrismClient.new defaultOpts)
      (some "example.com") (some 80)).2.1 "example.com" rfl (by decide)).1,
   (((connect_characterization (PrismClient.new defaultOpts) none none).2.2
      (by rfl)).1 (by rfl)).1⟩

/-- On a connected, authenticated client the standard pipeline issues
exactly its one POST, whatever the transport answers. -/
theorem postPipeline_requests (c : PrismClient) (req : OutRequest)
    (catchFn : JsError → JsError) (oracle : OutRequest → HttpOutcome)
    (hc : c.connected = true) (ha : c.authenticated = true) :
    (postPipeline c req catchFn oracle).requests = [req] := by
  unfold postPipeline
  rw [prepare_ok c hc ha]
  cases h : oracle req with
  | failure e => rfl
  | success res body =>
    cases hv : validateResponse res body with
    | error e => simp [hv]
    | ok pr => simp [hv]

/-- C6: for every client (connected or not) and every token,
`setSession(token)` makes `isAuthenticated()` true immediately, stores the
token-bearing session `{token}`, issues no network request whatever the
transport would answer, and leaves the connected flag untouched. -/
theorem setSession_authenticates_without_network (c : PrismClient)
    (t : String) (oracle : OutRequest → HttpOutcome) :
    ((setSessionRun c t oracle).requests = [])
    ∧ (isAuthenticated (setSessionRun c t oracle).client = true)
    ∧ ((setSessionRun c t oracle).client.session = .obj [("token", .str t)])
    ∧ ((setSessionRun c t oracle).client.connected = c.connected) :=
  ⟨rfl, rfl, rfl, rfl⟩

/-- C7: on a ready client, the single request `jobCreate` issues carries a
payload whose `description` field is the `JSON.stringify` serialization of
the description argument, and whose `category` field is the string
`resource` whenever the category argument is omitted (and, generally,
`category || 'resource'`). -/
theorem jobCreate_payload_defaults (c : PrismClient) (d : Json)
    (p : Option Int) (oracle : OutRequest → HttpOutcome)
    (hc : c.connected = true) (ha : c.authenticated = true) :
    ((jobCreate c d p none oracle).requests
      = [{ path := "/job/create"
           body := .jsonBody (.obj
             [("description", .str (jsonStringify d)),
              ("priority",
                if jsTruthyInt p then .num (p.getD 0) else .null),
              ("category", .str "resource")]) }])
    ∧ (∀ k : Option String, (jobCreate c d p k oracle).requests
      = [{ path := "/job/create"
           body := .jsonBody (.obj
             [("description", .str (jsonStringify d)),
              ("priority",
                if jsTruthyInt p then .num (p.getD 0) else .null),
              ("category", .str (jsOrStr k "resource"))]) }]) := by
  have hreq : ∀ (k : Option String), (jobCreate c d p k oracle).requests
      = [{ path := "/job/create"
           body := .jsonBody (.obj
             [("description", .str (jsonStringify d)),
              ("priority",
                if jsTruthyInt p then .num (p.getD 0) else .null),
              ("category", .str (jsOrStr k "resource"))]) }] := by
    intro k
    simp only [jobCreate]
    exact postPipeline_requests c _ _ oracle hc ha
  exact ⟨hreq none, hreq⟩

/-- C7 witness: a concrete `jobCreate` on the ready client with a concrete
description, evaluating the serialized payload. -/
theorem jobCreate_payload_witness :
    (jobCreate readyClient (.obj [("a", .num 1)]) none none
        (fun _ => .success ⟨200⟩ (.obj []))).requests
      = [{ path := "/job/create"
           body := .jsonBody (.obj
             [("description", .str "\x7b\"a\":1\x7d"),
              ("priority", .null),
              ("category", .str "resource")]) }] := by
  have h := (jobCreate_payload_defaults readyClient (.obj [("a", .num 1)])
    none (fun _ => .success ⟨200⟩ (.obj [])) rfl rfl).1
  simpa using h

/-- C8: `urlPurchase` and `urlStatic` are pure string builders issuing no
network request: `urlPurchase` yields `//<domain>/<token>/<name>.<ext>` with
the name defaulting to `video`, and `urlStatic` yields
`//<domain>/static/<hash>/<name>.<ext>` with name defaulting to `file` and
extension defaulting to `bin`; concretely
`urlPurchase({token:'t',ext:'mp4'})` on the default domain is
`//cdn.oose.io/t/video.mp4` and `urlStatic('abc123')` is
`//cdn.oose.io/static/abc123/file.bin`. -/
theorem url_builders_pure (c : PrismClient) (purchase : PurchaseObj)
    (name : Option String) (hash : String) (ext nm : Option String)
    (oracle : OutRequest → HttpOutcome) :
    (urlPurchase c purchase name
      = "//" ++ c.opts.domain ++ "/" ++ purchase.token ++ "/"
        ++ jsOrStr name "video" ++ "." ++ purchase.ext)
    ∧ (urlStatic c hash ext nm
      = "//" ++ c.opts.domain ++ "/static/" ++ hash ++ "/"
        ++ jsOrStr nm "file" ++ "." ++ jsOrStr ext "bin")
    ∧ ((urlPurchaseRun c purchase name oracle).requests = [])
    ∧ ((urlStaticRun c hash ext nm oracle).requests = [])
    ∧ (urlPurchase (PrismClient.new defaultOpts)
        { token := "t", ext := "mp4" } none = "//cdn.oose.io/t/video.mp4")
    ∧ (urlStatic (PrismClient.new defaultOpts) "abc123" none none
        = "//cdn.oose.io/static/abc123/file.bin") :=
  ⟨rfl, rfl, rfl, rfl, rfl, rfl⟩

/-- C9: `jobContentUrl` is a pure string builder issuing no network request,
producing `https://<host>:<port>/job/content/download/<handle>/<file>` from
the configured prism host and port; concretely, with host `example.com` and
port 5971, `jobContentUrl('h1','f.txt')` is
`https://example.com:5971/job/content/download/h1/f.txt`. -/
theorem jobContentUrl_builds_download_url (c : PrismClient)
    (handle file h : String) (p : Nat)
    (oracle : OutRequest → HttpOutcome)
    (hh : c.opts.prismHost = some h) (hp : c.opts.prismPort = some p) :
    (jobContentUrl c handle file
      = "https://" ++ h ++ ":" ++ toString p ++ "/job/content/download/"
        ++ handle ++ "/" ++ file)
    ∧ ((jobContentUrlRun c handle file oracle).requests = [])
    ∧ (jobContentUrl readyClient "h1" "f.txt"
      = "https://example.com:5971/job/content/download/h1/f.txt") := by
  refine ⟨?_, rfl, rfl⟩
  simp [jobContentUrl, jsShowOptStr, jsShowOptNat, hh, hp]

/-- C9 witness: the theorem applied at the ready client
(host `example.com`, port 5971). -/
theorem jobContentUrl_witness :
    jobContentUrl readyClient "h1" "f.txt"
      = "https://" ++ "example.com" ++ ":" ++ toString 5971
        ++ "/job/content/download/" ++ "h1" ++ "/" ++ "f.txt" :=
  (jobContentUrl_builds_download_url readyClient "h1" "f.txt"
    "example.com" 5971 (fun _ => .failure (.networkError "x")) rfl rfl).1

/-- C10: on a ready client `jobUpdate(handle, changes)` posts exactly one
request, to `/job/update`, whose JSON body is the `changes` argument alone,
and the whole operation is independent of the `handle` argument (it appears
nowhere in the outgoing request). -/
theorem jobUpdate_posts_changes_only (c : PrismClient) (g h : String)
    (changes : Json) (oracle : OutRequest → HttpOutcome)
    (hc : c.connected = true) (ha : c.authenticated = true) :
    ((jobUpdate c g changes oracle).requests
      = [{ path := "/job/update", body := .jsonBody changes }])
    ∧ jobUpdate c g changes oracle = jobUpdate c h changes oracle := by
  constructor
  · simp only [jobUpdate]
    exact postPipeline_requests c _ _ oracle hc ha
  · rfl

/-- C10 witness: the theorem at the ready client with concrete handle and
changes. -/
theorem jobUpdate_posts_changes_witness :
    (jobUpdate readyClient "h1" (.obj [("status", .str "complete")])
        (fun _ => .success ⟨200⟩ (.obj []))).requests
      = [{ path := "/job/update"
           body := .jsonBody (.obj [("status", .str "complete")]) }] :=
  (jobUpdate_posts_changes_only readyClient "h1" "h2"
    (.obj [("status", .str "complete")])
    (fun _ => .success ⟨200⟩ (.obj [])) rfl rfl).1

end StretchFS
